import Mathlib

/-!
Verification of the amortization core of the mortgage calculator
(`calculateMortgage` in `app.js`), shallowly embedded over the real numbers.

The source function takes the three form values, parses them with
`parseFloat`, validates them, and either returns `null` (invalid input) or an
object with six numeric fields.  Here `Option PaymentSummary` plays the role
of `PaymentSummary | null`, and JavaScript's double arithmetic is embedded as
real arithmetic; `Math.pow` is the real power function `Real.rpow` (the
exponent `n = years * 12` is a real, not an integer, exactly as in the
source).  A second model further down embeds the `NaN` behaviour of the
validation comparisons, which the real-number model cannot express.
-/

/-- The result object built by `calculateMortgage` in `app.js`. -/
structure PaymentSummary where
  monthlyPayment : ℝ
  totalPayment : ℝ
  totalInterest : ℝ
  principalAmount : ℝ
  interestPercentage : ℝ
  principalPercentage : ℝ

/-- `const r = parseFloat(annualRate) / 12 / 100` — the monthly interest rate. -/
noncomputable def monthlyRate (annualRate : ℝ) : ℝ := annualRate / 12 / 100

/-- `const n = parseFloat(years) * 12` — the total number of payments
(the literal product, not rounded, so it is a real number). -/
noncomputable def numPayments (years : ℝ) : ℝ := years * 12

/-- The `monthlyPayment` computation of `calculateMortgage`: the zero-rate
branch `P / n`, else the annuity formula
`P * (r * Math.pow(1+r, n)) / (Math.pow(1+r, n) - 1)`. -/
noncomputable def monthlyPaymentOf (P r n : ℝ) : ℝ :=
  if r = 0 then P / n
  else
    let numerator := r * (1 + r) ^ n
    let denominator := (1 + r) ^ n - 1
    P * (numerator / denominator)

/-- `calculateMortgage(principal, annualRate, years)` from `app.js`, over the
reals (so `parseFloat` of an already-numeric input is the identity).  Returns
`none` exactly where the source returns `null`. -/
noncomputable def calculateMortgage (principal annualRate years : ℝ) :
    Option PaymentSummary :=
  let P := principal
  let r := monthlyRate annualRate
  let n := numPayments years
  if P ≤ 0 ∨ annualRate < 0 ∨ years ≤ 0 then none
  else
    let monthlyPayment := monthlyPaymentOf P r n
    let totalPayment := monthlyPayment * n
    let totalInterest := totalPayment - P
    let principalAmount := P
    some
      { monthlyPayment := monthlyPayment
        totalPayment := totalPayment
        totalInterest := totalInterest
        principalAmount := principalAmount
        interestPercentage := totalInterest / totalPayment * 100
        principalPercentage := principalAmount / totalPayment * 100 }

/-- Unfolding of `calculateMortgage` on inputs passing the validation. -/
lemma calculateMortgage_of_valid (P R T : ℝ)
    (h : ¬(P ≤ 0 ∨ R < 0 ∨ T ≤ 0)) :
    calculateMortgage P R T =
      some
        { monthlyPayment := monthlyPaymentOf P (monthlyRate R) (numPayments T)
          totalPayment := monthlyPaymentOf P (monthlyRate R) (numPayments T) *
            numPayments T
          totalInterest := monthlyPaymentOf P (monthlyRate R) (numPayments T) *
            numPayments T - P
          principalAmount := P
          interestPercentage :=
            (monthlyPaymentOf P (monthlyRate R) (numPayments T) *
              numPayments T - P) /
            (monthlyPaymentOf P (monthlyRate R) (numPayments T) *
              numPayments T) * 100
          principalPercentage :=
            P / (monthlyPaymentOf P (monthlyRate R) (numPayments T) *
              numPayments T) * 100 } := by
  simp only [calculateMortgage, if_neg h]

/-- Claim C2: validity is decided exactly by `P ≤ 0 ∨ R < 0 ∨ T ≤ 0`; a zero
rate is accepted, and each of the spec's five invalid examples yields `none`. -/
theorem claim2_validation (P R T : ℝ) :
    (calculateMortgage P R T = none ↔ P ≤ 0 ∨ R < 0 ∨ T ≤ 0) ∧
    calculateMortgage 1 0 1 ≠ none ∧
    calculateMortgage 0 R T = none ∧
    calculateMortgage (-100) R T = none ∧
    calculateMortgage P (-1) T = none ∧
    calculateMortgage P R 0 = none ∧
    calculateMortgage P R (-5) = none := by
  have base : ∀ P₂ R₂ T₂ : ℝ,
      (calculateMortgage P₂ R₂ T₂ = none ↔ P₂ ≤ 0 ∨ R₂ < 0 ∨ T₂ ≤ 0) := by
    intro P₂ R₂ T₂
    by_cases h : P₂ ≤ 0 ∨ R₂ < 0 ∨ T₂ ≤ 0
    · simp [calculateMortgage, h]
    · rw [calculateMortgage_of_valid P₂ R₂ T₂ h]
      simp [h]
  refine ⟨base P R T, ?_, ?_, ?_, ?_, ?_, ?_⟩
  · rw [Ne, base]; norm_num
  · rw [base]; norm_num
  · rw [base]; norm_num
  · rw [base]; norm_num
  · rw [base]; norm_num
  · rw [base]; norm_num

/-- With a positive rate and a positive number of payments the annuity
denominator `(1+r)^n - 1` is positive. -/
lemma annuity_denom_pos (r n : ℝ) (hr : 0 < r) (hn : 0 < n) :
    0 < (1 + r) ^ n - 1 := by
  have h1 : (1 : ℝ) < (1 + r) ^ n :=
    (Real.one_lt_rpow_iff_of_pos (by linarith)).mpr (Or.inl ⟨by linarith, hn⟩)
  linarith

/-- The monthly payment is positive on every valid input. -/
lemma monthlyPaymentOf_pos (P r n : ℝ) (hP : 0 < P) (hr : 0 ≤ r)
    (hn : 0 < n) : 0 < monthlyPaymentOf P r n := by
  unfold monthlyPaymentOf
  rcases eq_or_lt_of_le hr with h0 | h0
  · rw [if_pos h0.symm]
    positivity
  · rw [if_neg (ne_of_gt h0)]
    have hd := annuity_denom_pos r n h0 hn
    have hx : 0 < (1 + r) ^ n := Real.rpow_pos_of_pos (by linarith) n
    positivity

/-- Bernoulli-type bound: for `r, n > 0`, `(1+r)^n - 1 ≤ n * r * (1+r)^n`.
This is the inequality behind "the annuity payment is at least the
straight-line payment". -/
lemma annuity_denom_le (r n : ℝ) (hr : 0 < r) (hn : 0 < n) :
    (1 + r) ^ n - 1 ≤ n * r * (1 + r) ^ n := by
  have h1r : (0 : ℝ) < 1 + r := by linarith
  have hx : (1 + r) ^ n = Real.exp (Real.log (1 + r) * n) :=
    Real.rpow_def_of_pos h1r n
  have hxpos : 0 < (1 + r) ^ n := Real.rpow_pos_of_pos h1r n
  have hLr : Real.log (1 + r) ≤ r := by
    have := Real.log_le_sub_one_of_pos h1r
    linarith
  have hinv : 1 - Real.log (1 + r) * n ≤ ((1 + r) ^ n)⁻¹ := by
    have h := Real.add_one_le_exp (-(Real.log (1 + r) * n))
    rw [Real.exp_neg, ← hx] at h
    linarith
  have hLn : Real.log (1 + r) * n ≤ r * n :=
    mul_le_mul_of_nonneg_right hLr (le_of_lt hn)
  have key : 1 - ((1 + r) ^ n)⁻¹ ≤ n * r := by nlinarith
  have hmul := mul_le_mul_of_nonneg_right key (le_of_lt hxpos)
  rw [sub_mul, one_mul, inv_mul_cancel₀ (ne_of_gt hxpos)] at hmul
  nlinarith

/-- The total repaid is at least the principal: `P ≤ monthlyPaymentOf P r n * n`. -/
lemma principal_le_total (P r n : ℝ) (hP : 0 < P) (hr : 0 ≤ r) (hn : 0 < n) :
    P ≤ monthlyPaymentOf P r n * n := by
  unfold monthlyPaymentOf
  rcases eq_or_lt_of_le hr with h0 | h0
  · rw [if_pos h0.symm, div_mul_cancel₀ P (ne_of_gt hn)]
  · rw [if_neg (ne_of_gt h0)]
    have hd := annuity_denom_pos r n h0 hn
    have hkey := annuity_denom_le r n h0 hn
    have hx : 0 < (1 + r) ^ n := Real.rpow_pos_of_pos (by linarith) n
    have h1 : 1 ≤ r * (1 + r) ^ n / ((1 + r) ^ n - 1) * n := by
      rw [div_mul_eq_mul_div, le_div_iff₀ hd, one_mul]
      nlinarith [hkey]
    nlinarith [mul_le_mul_of_nonneg_left h1 (le_of_lt hP)]

/-- Claim C1: on every valid input with nonzero monthly rate
`r = R / 12 / 100`, the returned `monthlyPayment` is
`P * (r * (1+r)^n) / ((1+r)^n - 1)` with `n = T * 12` taken as the literal
real-valued product (the power is the real power function). -/
theorem claim1_monthly_payment_formula (P R T : ℝ) (hP : 0 < P) (hR : 0 ≤ R)
    (hT : 0 < T) (hr : R / 12 / 100 ≠ 0) :
    (calculateMortgage P R T).map PaymentSummary.monthlyPayment =
      some (P * (R / 12 / 100 * (1 + R / 12 / 100) ^ (T * 12)) /
        ((1 + R / 12 / 100) ^ (T * 12) - 1)) := by
  have h : ¬(P ≤ 0 ∨ R < 0 ∨ T ≤ 0) := by push_neg; exact ⟨hP, hR, hT⟩
  rw [calculateMortgage_of_valid P R T h]
  simp only [Option.map_some']
  unfold monthlyPaymentOf monthlyRate numPayments
  rw [if_neg hr, mul_div_assoc]

/-- Claim C5: with a zero annual rate the zero-rate branch is taken, the
monthly payment is the straight-line value `P / (T * 12)` and the total
interest is `0`. -/
theorem claim5_zero_rate (P T : ℝ) (hP : 0 < P) (hT : 0 < T) :
    (calculateMortgage P 0 T).map
        (fun s => (s.monthlyPayment, s.totalInterest)) =
      some (P / (T * 12), 0) := by
  have h : ¬(P ≤ 0 ∨ (0 : ℝ) < 0 ∨ T ≤ 0) := by push_neg; exact ⟨hP, le_rfl, hT⟩
  rw [calculateMortgage_of_valid P 0 T h]
  simp only [Option.map_some']
  unfold monthlyPaymentOf monthlyRate numPayments
  rw [if_pos (by norm_num)]
  have hn : T * 12 ≠ 0 := by positivity
  rw [div_mul_cancel₀ P hn]
  simp

/-- Witness for C1 at the fractional term `T = 1/2` (so `n = 6`). -/
theorem claim1_witness :
    (calculateMortgage 1000 12 (1 / 2)).map PaymentSummary.monthlyPayment =
      some (1000 * (12 / 12 / 100 * (1 + 12 / 12 / 100) ^ ((1 : ℝ) / 2 * 12)) /
        ((1 + 12 / 12 / 100) ^ ((1 : ℝ) / 2 * 12) - 1)) :=
  claim1_monthly_payment_formula 1000 12 (1 / 2) (by norm_num) (by norm_num)
    (by norm_num) (by norm_num)

/-- Witness for C5 at the spec's concrete scenario `P = 500000`, `T = 10`. -/
theorem claim5_witness :
    (calculateMortgage 500000 0 10).map
        (fun s => (s.monthlyPayment, s.totalInterest)) =
      some ((500000 : ℝ) / (10 * 12), 0) :=
  claim5_zero_rate 500000 10 (by norm_num) (by norm_num)

/-- A summary is only ever produced for inputs passing the validation. -/
lemma valid_of_some (P R T : ℝ) (s : PaymentSummary)
    (hs : calculateMortgage P R T = some s) : ¬(P ≤ 0 ∨ R < 0 ∨ T ≤ 0) := by
  intro h
  simp [calculateMortgage, h] at hs

/-- Every summary actually returned has a positive `totalPayment`. -/
lemma totalPayment_pos (P R T : ℝ) (s : PaymentSummary)
    (hs : calculateMortgage P R T = some s) : 0 < s.totalPayment := by
  have hv := valid_of_some P R T s hs
  push_neg at hv
  obtain ⟨hP, hR, hT⟩ := hv
  rw [calculateMortgage_of_valid P R T (by push_neg; exact ⟨hP, hR, hT⟩)] at hs
  injection hs with h
  subst h
  have hn : 0 < numPayments T := by unfold numPayments; positivity
  have hr : 0 ≤ monthlyRate R := by unfold monthlyRate; positivity
  exact mul_pos (monthlyPaymentOf_pos P (monthlyRate R) (numPayments T) hP hr hn) hn

/-- Claim C4: every returned summary satisfies the four spec invariants —
`totalPayment = monthlyPayment * n`, `totalInterest = totalPayment -
principalAmount`, the two percentages sum to exactly `100`, and
`principalAmount` is the input principal unchanged. -/
theorem claim4_invariants (P R T : ℝ) (s : PaymentSummary)
    (hs : calculateMortgage P R T = some s) :
    s.totalPayment = s.monthlyPayment * (T * 12) ∧
    s.totalInterest = s.totalPayment - s.principalAmount ∧
    s.interestPercentage + s.principalPercentage = 100 ∧
    s.principalAmount = P := by
  have htp := totalPayment_pos P R T s hs
  have hv := valid_of_some P R T s hs
  rw [calculateMortgage_of_valid P R T hv] at hs
  injection hs with h
  subst h
  refine ⟨rfl, rfl, ?_, rfl⟩
  dsimp at htp ⊢
  field_simp
  ring

/-- Claim C6: on valid inputs the returned `monthlyPayment`, `totalPayment`
and `totalInterest` are non-negative; in particular
`monthlyPayment * n ≥ P`, i.e. the annuity payment is at least the
straight-line payment. -/
theorem claim6_nonneg (P R T : ℝ) (hP : 0 < P) (hR : 0 ≤ R) (hT : 0 < T)
    (s : PaymentSummary) (hs : calculateMortgage P R T = some s) :
    0 ≤ s.monthlyPayment ∧ 0 ≤ s.totalPayment ∧ 0 ≤ s.totalInterest ∧
    P ≤ s.monthlyPayment * (T * 12) := by
  have hv := valid_of_some P R T s hs
  rw [calculateMortgage_of_valid P R T hv] at hs
  injection hs with h
  subst h
  have hn : 0 < numPayments T := by unfold numPayments; positivity
  have hr : 0 ≤ monthlyRate R := by unfold monthlyRate; positivity
  have hmp := monthlyPaymentOf_pos P (monthlyRate R) (numPayments T) hP hr hn
  have hle := principal_le_total P (monthlyRate R) (numPayments T) hP hr hn
  refine ⟨le_of_lt hmp, le_of_lt (mul_pos hmp hn), ?_, ?_⟩
  · dsimp
    linarith
  · dsimp
    unfold numPayments at hle
    exact hle

/-- Claim C8: the computation is deterministic — it is a function of its
three arguments alone, so equal inputs give identical results. -/
theorem claim8_deterministic (P₁ R₁ T₁ P₂ R₂ T₂ : ℝ)
    (hP : P₁ = P₂) (hR : R₁ = R₂) (hT : T₁ = T₂) :
    calculateMortgage P₁ R₁ T₁ = calculateMortgage P₂ R₂ T₂ := by
  rw [hP, hR, hT]

/-- Claim C9: under the validity precondition every divisor in the
computation is nonzero: `n = T * 12 > 0`, the annuity denominator
`(1+r)^n - 1` is positive whenever the nonzero-rate branch is taken, and the
`totalPayment` dividing the percentage computations is positive. -/
theorem claim9_no_zero_divisor (P R T : ℝ) (hP : 0 < P) (hR : 0 ≤ R)
    (hT : 0 < T) :
    0 < numPayments T ∧
    (0 < (1 + monthlyRate R) ^ numPayments T - 1 ∨ monthlyRate R = 0) ∧
    0 < ((calculateMortgage P R T).map PaymentSummary.totalPayment).getD 1 := by
  have hn : 0 < numPayments T := by unfold numPayments; positivity
  refine ⟨hn, ?_, ?_⟩
  · rcases eq_or_ne (monthlyRate R) 0 with h0 | h0
    · exact Or.inr h0
    · have hrpos : 0 < monthlyRate R := by
        rcases lt_or_eq_of_le (show (0:ℝ) ≤ monthlyRate R by
          unfold monthlyRate; positivity) with h | h
        · exact h
        · exact absurd h.symm h0
      exact Or.inl (annuity_denom_pos (monthlyRate R) (numPayments T) hrpos hn)
  · have hv : ¬(P ≤ 0 ∨ R < 0 ∨ T ≤ 0) := by push_neg; exact ⟨hP, hR, hT⟩
    rw [calculateMortgage_of_valid P R T hv]
    simp only [Option.map_some', Option.getD_some]
    have hr : 0 ≤ monthlyRate R := by unfold monthlyRate; positivity
    exact mul_pos (monthlyPaymentOf_pos P (monthlyRate R) (numPayments T) hP hr hn) hn

/-- The concrete summary for `P = 100`, `R = 0`, `T = 1`. -/
noncomputable def sampleSummary : PaymentSummary :=
  { monthlyPayment := 25 / 3
    totalPayment := 100
    totalInterest := 0
    principalAmount := 100
    interestPercentage := 0
    principalPercentage := 100 }

/-- `calculateMortgage` evaluated at `P = 100`, `R = 0`, `T = 1`. -/
lemma calculateMortgage_sample : calculateMortgage 100 0 1 = some sampleSummary := by
  rw [calculateMortgage_of_valid 100 0 1 (by norm_num)]
  unfold sampleSummary monthlyPaymentOf monthlyRate numPayments
  norm_num

/-- Witness for C4 at `P = 100`, `R = 0`, `T = 1`. -/
theorem claim4_witness :
    calculateMortgage 100 0 1 = some sampleSummary ∧
    (sampleSummary.totalPayment = sampleSummary.monthlyPayment * (1 * 12) ∧
     sampleSummary.totalInterest =
       sampleSummary.totalPayment - sampleSummary.principalAmount ∧
     sampleSummary.interestPercentage + sampleSummary.principalPercentage = 100 ∧
     sampleSummary.principalAmount = 100) :=
  ⟨calculateMortgage_sample,
    claim4_invariants 100 0 1 sampleSummary calculateMortgage_sample⟩

/-- Witness for C6 at `P = 100`, `R = 0`, `T = 1`. -/
theorem claim6_witness :
    (0 : ℝ) < 100 ∧ (0 : ℝ) ≤ 0 ∧ (0 : ℝ) < 1 ∧
    (0 ≤ sampleSummary.monthlyPayment ∧ 0 ≤ sampleSummary.totalPayment ∧
     0 ≤ sampleSummary.totalInterest ∧
     100 ≤ sampleSummary.monthlyPayment * (1 * 12)) :=
  ⟨by norm_num, le_rfl, by norm_num,
    claim6_nonneg 100 0 1 (by norm_num) le_rfl (by norm_num) sampleSummary
      calculateMortgage_sample⟩

/-- Witness for C8 at a concrete repeated call. -/
theorem claim8_witness :
    calculateMortgage 250000 (13 / 2) 30 = calculateMortgage 250000 (13 / 2) 30 :=
  claim8_deterministic 250000 (13 / 2) 30 250000 (13 / 2) 30 rfl rfl rfl

/-- Witness for C9 at `P = 100`, `R = 8`, `T = 20`. -/
theorem claim9_witness :
    0 < numPayments 20 ∧
    (0 < (1 + monthlyRate 8) ^ numPayments 20 - 1 ∨ monthlyRate 8 = 0) ∧
    0 < ((calculateMortgage 100 8 20).map PaymentSummary.totalPayment).getD 1 :=
  claim9_no_zero_divisor 100 8 20 (by norm_num) (by norm_num) (by norm_num)

/-- The monthly payment is linear in the principal. -/
lemma monthlyPaymentOf_smul (k P r n : ℝ) :
    monthlyPaymentOf (k * P) r n = k * monthlyPaymentOf P r n := by
  unfold monthlyPaymentOf
  by_cases h : r = 0 <;> simp only [h, if_pos, if_neg, if_true, if_false] <;> ring

/-- Claim C10: scaling the principal by `k > 0` scales `monthlyPayment`,
`totalPayment` and `totalInterest` by exactly `k` and leaves both breakdown
percentages unchanged. -/
theorem claim10_homogeneous (P R T k : ℝ) (hP : 0 < P) (hR : 0 ≤ R)
    (hT : 0 < T) (hk : 0 < k) :
    (calculateMortgage (k * P) R T).map PaymentSummary.monthlyPayment =
      (calculateMortgage P R T).map (fun s => k * s.monthlyPayment) ∧
    (calculateMortgage (k * P) R T).map PaymentSummary.totalPayment =
      (calculateMortgage P R T).map (fun s => k * s.totalPayment) ∧
    (calculateMortgage (k * P) R T).map PaymentSummary.totalInterest =
      (calculateMortgage P R T).map (fun s => k * s.totalInterest) ∧
    (calculateMortgage (k * P) R T).map PaymentSummary.interestPercentage =
      (calculateMortgage P R T).map PaymentSummary.interestPercentage ∧
    (calculateMortgage (k * P) R T).map PaymentSummary.principalPercentage =
      (calculateMortgage P R T).map PaymentSummary.principalPercentage := by
  have hv : ¬(P ≤ 0 ∨ R < 0 ∨ T ≤ 0) := by push_neg; exact ⟨hP, hR, hT⟩
  have hv2 : ¬(k * P ≤ 0 ∨ R < 0 ∨ T ≤ 0) := by
    push_neg
    exact ⟨mul_pos hk hP, hR, hT⟩
  rw [calculateMortgage_of_valid P R T hv, calculateMortgage_of_valid (k * P) R T hv2]
  have hk0 : k ≠ 0 := ne_of_gt hk
  have e1 : ∀ a b : ℝ,
      (k * a * b - k * P) / (k * a * b) * 100 = (a * b - P) / (a * b) * 100 := by
    intro a b
    rw [show k * a * b - k * P = k * (a * b - P) by ring,
      show k * a * b = k * (a * b) by ring, mul_div_mul_left _ _ hk0]
  have e2 : ∀ a b : ℝ, k * P / (k * a * b) * 100 = P / (a * b) * 100 := by
    intro a b
    rw [show k * a * b = k * (a * b) by ring, mul_div_mul_left _ _ hk0]
  refine ⟨?_, ?_, ?_, ?_, ?_⟩ <;>
    simp only [Option.map_some', monthlyPaymentOf_smul, Option.some.injEq]
  · rw [mul_assoc]
  · ring
  · rw [e1]
  · rw [e2]

/-- Witness for C10 at `P = 100`, `R = 8`, `T = 20`, `k = 2`. -/
theorem claim10_witness :
    (calculateMortgage (2 * 100) 8 20).map PaymentSummary.monthlyPayment =
      (calculateMortgage 100 8 20).map (fun s => 2 * s.monthlyPayment) ∧
    (calculateMortgage (2 * 100) 8 20).map PaymentSummary.totalPayment =
      (calculateMortgage 100 8 20).map (fun s => 2 * s.totalPayment) ∧
    (calculateMortgage (2 * 100) 8 20).map PaymentSummary.totalInterest =
      (calculateMortgage 100 8 20).map (fun s => 2 * s.totalInterest) ∧
    (calculateMortgage (2 * 100) 8 20).map PaymentSummary.interestPercentage =
      (calculateMortgage 100 8 20).map PaymentSummary.interestPercentage ∧
    (calculateMortgage (2 * 100) 8 20).map PaymentSummary.principalPercentage =
      (calculateMortgage 100 8 20).map PaymentSummary.principalPercentage :=
  claim10_homogeneous 100 8 20 2 (by norm_num) (by norm_num) (by norm_num)
    (by norm_num)

/-- Lower bound on the scenario growth factor `(151/150)^240`. -/
lemma pow240_lb : (49268027 : ℝ) / 10000000 < (151 / 150 : ℝ) ^ (240 : ℕ) := by
  norm_num

/-- Upper bound on the scenario growth factor `(151/150)^240`. -/
lemma pow240_ub : (151 / 150 : ℝ) ^ (240 : ℕ) < (49268028 : ℝ) / 10000000 := by
  norm_num

/-- In the spec's concrete scenario the real power reduces to a natural
power: `r = 8/12/100 = 1/150` and `n = 20 * 12 = 240` is an integer. -/
lemma monthlyPayment_scenario :
    monthlyPaymentOf 1000000 (monthlyRate 8) (numPayments 20) =
      1000000 * (8 / 12 / 100 * (151 / 150 : ℝ) ^ (240 : ℕ) /
        ((151 / 150 : ℝ) ^ (240 : ℕ) - 1)) := by
  unfold monthlyPaymentOf monthlyRate numPayments
  rw [if_neg (by norm_num)]
  have hb : (1 : ℝ) + 8 / 12 / 100 = 151 / 150 := by norm_num
  have he : (20 : ℝ) * 12 = ((240 : ℕ) : ℝ) := by norm_num
  rw [hb, he, Real.rpow_natCast]

/-- Counterexample to C7: in the scenario `P = 1000000`, `R = 8`, `T = 20`
the returned `totalPayment` and `totalInterest` are more than `10` away from
the spec's figures `2007467` and `1007467` (the formula's exact values are
`2007456.17` and `1007456.17`). -/
theorem claim7_counterexample :
    calculateMortgage 1000000 8 20 ≠ none ∧
    10 < |((calculateMortgage 1000000 8 20).map
      PaymentSummary.totalPayment).getD 0 - 2007467| ∧
    10 < |((calculateMortgage 1000000 8 20).map
      PaymentSummary.totalInterest).getD 0 - 1007467| := by
  rw [calculateMortgage_of_valid 1000000 8 20 (by norm_num)]
  simp only [Option.map_some', Option.getD_some, ne_eq, reduceCtorEq,
    not_false_eq_true, true_and]
  rw [monthlyPayment_scenario]
  unfold numPayments
  have hlo := pow240_lb
  have hub := pow240_ub
  obtain ⟨q, hq⟩ : ∃ x : ℝ, (151 / 150 : ℝ) ^ (240 : ℕ) = x := ⟨_, rfl⟩
  rw [hq] at hlo hub ⊢
  have hd : 0 < q - 1 := by linarith
  have hX : 1000000 * (8 / 12 / 100 * q / (q - 1)) * ((20 : ℝ) * 12) =
      1600000 * q / (q - 1) := by ring
  have hXlt : 1000000 * (8 / 12 / 100 * q / (q - 1)) * ((20 : ℝ) * 12) <
      2007457 := by
    rw [hX, div_lt_iff₀ hd]
    linarith
  constructor
  · rw [lt_abs]
    right
    linarith
  · rw [lt_abs]
    right
    linarith

/-- C7 as amended: the scenario's `monthlyPayment` is within `1/2` of `8364`
and `totalPayment`, `totalInterest` are within `1/2` of `2007456` and
`1007456`, the formula's exact values to the nearest unit. -/
theorem claim7_scenario_amended :
    calculateMortgage 1000000 8 20 ≠ none ∧
    |((calculateMortgage 1000000 8 20).map
      PaymentSummary.monthlyPayment).getD 0 - 8364| < 1 / 2 ∧
    |((calculateMortgage 1000000 8 20).map
      PaymentSummary.totalPayment).getD 0 - 2007456| < 1 / 2 ∧
    |((calculateMortgage 1000000 8 20).map
      PaymentSummary.totalInterest).getD 0 - 1007456| < 1 / 2 := by
  rw [calculateMortgage_of_valid 1000000 8 20 (by norm_num)]
  simp only [Option.map_some', Option.getD_some, ne_eq, reduceCtorEq,
    not_false_eq_true, true_and]
  rw [monthlyPayment_scenario]
  unfold numPayments
  have hlo := pow240_lb
  have hub := pow240_ub
  obtain ⟨q, hq⟩ : ∃ x : ℝ, (151 / 150 : ℝ) ^ (240 : ℕ) = x := ⟨_, rfl⟩
  rw [hq] at hlo hub ⊢
  have hd : 0 < q - 1 := by linarith
  have hm : 1000000 * (8 / 12 / 100 * q / (q - 1)) = (20000 / 3) * q / (q - 1) := by
    ring
  have hX : 1000000 * (8 / 12 / 100 * q / (q - 1)) * ((20 : ℝ) * 12) =
      1600000 * q / (q - 1) := by ring
  have hm_lt : 1000000 * (8 / 12 / 100 * q / (q - 1)) < 8364 + 1 / 2 := by
    rw [hm, div_lt_iff₀ hd]
    linarith
  have hm_gt : 8364 - 1 / 2 < 1000000 * (8 / 12 / 100 * q / (q - 1)) := by
    rw [hm, lt_div_iff₀ hd]
    linarith
  have hX_lt : 1000000 * (8 / 12 / 100 * q / (q - 1)) * ((20 : ℝ) * 12) <
      2007456 + 1 / 2 := by
    rw [hX, div_lt_iff₀ hd]
    linarith
  have hX_gt : 2007456 - 1 / 2 <
      1000000 * (8 / 12 / 100 * q / (q - 1)) * ((20 : ℝ) * 12) := by
    rw [hX, lt_div_iff₀ hd]
    linarith
  refine ⟨?_, ?_, ?_⟩ <;> rw [abs_lt] <;> constructor <;> linarith

/-- A JavaScript number as consumed by `calculateMortgage`: `some x` is an
ordinary numeric value modelled as a real, `none` is `NaN` — in particular
what `parseFloat` yields on a form string that fails to parse.  (Infinities
and double rounding are not modelled; no path exercised below produces
them.) -/
def JSNum : Type := Option ℝ

/-- Binary double arithmetic: a `NaN` operand propagates to a `NaN` result,
as in JavaScript. -/
def jsBin (f : ℝ → ℝ → ℝ) : JSNum → JSNum → JSNum
  | some x, some y => some (f x y)
  | _, _ => none

noncomputable def jsAdd : JSNum → JSNum → JSNum := jsBin (· + ·)

noncomputable def jsSub : JSNum → JSNum → JSNum := jsBin (· - ·)

noncomputable def jsMul : JSNum → JSNum → JSNum := jsBin (· * ·)

noncomputable def jsDiv : JSNum → JSNum → JSNum := jsBin (· / ·)

/-- `Math.pow` on the reals; with a `NaN` operand it is `NaN` (the JS corner
case `Math.pow(x, 0) = 1` even for `NaN` base is never hit below). -/
noncomputable def jsPow : JSNum → JSNum → JSNum := jsBin (fun x y => x ^ y)

/-- JavaScript `<=` on numbers: false whenever an operand is `NaN`. -/
def jsLe : JSNum → JSNum → Prop
  | some x, some y => x ≤ y
  | _, _ => False

/-- JavaScript `<` on numbers: false whenever an operand is `NaN`. -/
def jsLt : JSNum → JSNum → Prop
  | some x, some y => x < y
  | _, _ => False

/-- JavaScript `===` on numbers: false whenever an operand is `NaN`. -/
def jsEq : JSNum → JSNum → Prop
  | some x, some y => x = y
  | _, _ => False

/-- The result object of `calculateMortgage` with possibly-`NaN` fields. -/
structure PaymentSummaryJS where
  monthlyPayment : JSNum
  totalPayment : JSNum
  totalInterest : JSNum
  principalAmount : JSNum
  interestPercentage : JSNum
  principalPercentage : JSNum

open Classical in
/-- `calculateMortgage(principal, annualRate, years)` over `JSNum`: the same
code as `calculateMortgage`, but keeping JavaScript's `NaN` semantics for the
arithmetic and for the comparisons in the validation guard.  The arguments
are the `parseFloat` results of the three form strings (`none` when parsing
failed). -/
noncomputable def calculateMortgageJS (principal annualRate years : JSNum) :
    Option PaymentSummaryJS :=
  let P := principal
  let r := jsDiv (jsDiv annualRate (some 12)) (some 100)
  let n := jsMul years (some 12)
  if jsLe P (some 0) ∨ jsLt annualRate (some 0) ∨ jsLe years (some 0) then none
  else
    let monthlyPayment :=
      if jsEq r (some 0) then jsDiv P n
      else
        let numerator := jsMul r (jsPow (jsAdd (some 1) r) n)
        let denominator := jsSub (jsPow (jsAdd (some 1) r) n) (some 1)
        jsMul P (jsDiv numerator denominator)
    let totalPayment := jsMul monthlyPayment n
    let totalInterest := jsSub totalPayment P
    let principalAmount := P
    some
      { monthlyPayment := monthlyPayment
        totalPayment := totalPayment
        totalInterest := totalInterest
        principalAmount := principalAmount
        interestPercentage := jsMul (jsDiv totalInterest totalPayment) (some 100)
        principalPercentage := jsMul (jsDiv principalAmount totalPayment) (some 100) }

/-- C3 failing input: an unparseable principal (`parseFloat` yields `NaN`,
modelled `none`) with rate `5` and term `10` slips through the validation
guard — every comparison against `NaN` is false — so `calculateMortgage`
returns a summary object whose numeric fields are all `NaN` instead of the
`null` ("no summary") that the spec requires for unparseable input. -/
theorem claim3_nan_summary :
    calculateMortgageJS none (some 5) (some 10) =
      some
        { monthlyPayment := none
          totalPayment := none
          totalInterest := none
          principalAmount := none
          interestPercentage := none
          principalPercentage := none } ∧
    calculateMortgageJS none (some 5) (some 10) ≠ none := by
  have h : calculateMortgageJS none (some 5) (some 10) =
      some
        { monthlyPayment := none
          totalPayment := none
          totalInterest := none
          principalAmount := none
          interestPercentage := none
          principalPercentage := none } := by
    have hcond : ¬(jsLe (none : JSNum) (some (0 : ℝ)) ∨
        jsLt (some (5 : ℝ)) (some (0 : ℝ)) ∨
        jsLe (some (10 : ℝ)) (some (0 : ℝ))) := by
      norm_num [jsLe, jsLt]
    have hrne : ¬ jsEq (jsDiv (jsDiv (some (5 : ℝ)) (some 12)) (some 100))
        (some (0 : ℝ)) := by
      norm_num [jsEq, jsDiv, jsBin]
    unfold calculateMortgageJS
    rw [if_neg hcond, if_neg hrne]
    simp [jsMul, jsDiv, jsSub, jsBin]
  refine ⟨h, ?_⟩
  rw [h]
  exact fun hc => Option.noConfusion hc
